import Mathlib

/-!
Shallow embedding of the vueformulate.com documentation-site repository:
the VuePress configuration `docs/.vuepress/config.js` (site constants,
sidebar navigation tree, plugin list with its SEO metadata callbacks) and
the example autocomplete component shown in the custom-inputs guide page
(`filteredOptions`, `increment`, `decrement`).

JavaScript idioms are modelled explicitly: a possibly-missing value is an
`Option`, and the truthiness tests of `x || y` and `x && y` on strings are
modelled by comparing against the empty string (the only falsy string).
-/

namespace VueformulateDocs

/-- Site-wide default description, the `description` constant on line 1 of
`docs/.vuepress/config.js`. -/
def siteDescription : String :=
  "The easiest way to build forms with Vue. Built-in validation, error handling, repeatable fields, form generation & more — make complex form creation a breeze."

/-- Site title, the `title` constant on line 2 of `docs/.vuepress/config.js`. -/
def siteTitle : String := "Vue Formulate"

/-- Per-page context as consumed by the SEO callbacks: the page title plus the
frontmatter and build metadata fields the callbacks read. A missing
frontmatter key (JS `undefined`) is `none`. -/
structure Page where
  title : String
  frontmatterDescription : Option String
  frontmatterDate : Option String
  frontmatterTags : Option (List String)
  lastUpdated : Option String
deriving Repr, DecidableEq

/-- Site context as consumed by the SEO callbacks: `$site.title` and the
`themeConfig` fields the callbacks read. -/
structure Site where
  title : String
  themeConfigAuthor : Option String
  themeConfigDomain : Option String
deriving Repr, DecidableEq

/-- Result of a JS expression of the form `x && new Date(x)`: `undef` when
`x` is `undefined`, the raw falsy string when `x` is `""` (JS `&&` returns
the falsy left operand unchanged), and a date built from `x` otherwise.
A date value carries the string it was constructed from; actual calendar
parsing happens in the external runtime and is irrelevant here. -/
inductive DateField where
  | undef
  | falsy (s : String)
  | date (s : String)
deriving Repr, DecidableEq

/-- SEO `description` callback, line 144 of `config.js`:
`$page => $page.frontmatter.description || description`. JS `||` falls
through on every falsy value, so both a missing description and an empty
string resolve to the site default. -/
def resolveDescription (page : Page) : String :=
  match page.frontmatterDescription with
  | none => siteDescription
  | some s => if s = "" then siteDescription else s

/-- SEO `title` callback, line 141 of `config.js`:
a template string appending an em dash and the literal site name. -/
def seoTitle (page : Page) : String :=
  page.title ++ " — Vue Formulate"

/-- SEO `image` callback, line 142 of `config.js`: a constant arrow function
ignoring every argument. -/
def seoImage (_page : Page) : String :=
  "https://vueformulate.com/assets/img/og.jpg"

/-- SEO `publishedAt` callback, line 150 of `config.js`:
`$page => $page.frontmatter.date && new Date($page.frontmatter.date)`. -/
def publishedAt (page : Page) : DateField :=
  match page.frontmatterDate with
  | none => DateField.undef
  | some s => if s = "" then DateField.falsy s else DateField.date s

/-- SEO `modifiedAt` callback, line 151 of `config.js`:
`$page => $page.lastUpdated && new Date($page.lastUpdated)`. -/
def modifiedAt (page : Page) : DateField :=
  match page.lastUpdated with
  | none => DateField.undef
  | some s => if s = "" then DateField.falsy s else DateField.date s

/-- One sidebar entry of the VuePress `themeConfig.sidebar` tree: either a
full object (title, optional path, optional `collapsable` flag, children —
an absent `children` key is the empty list) or a bare path string shorthand. -/
inductive SidebarEntry where
  | node (title : String) (path : Option String) (collapsable : Option Bool)
      (children : List SidebarEntry)
  | pathStr (path : String)

/-- The `'/guide'` sidebar tree, lines 14-112 of `config.js`, transcribed
literally (the spread of the literal path array under `Types` is that array). -/
def guideSidebar : List SidebarEntry :=
  [SidebarEntry.node "Guide" (some "/guide") (some false)
    [SidebarEntry.node "Installation" (some "/guide/installation/") (some true) [],
     SidebarEntry.node "Getting Started" (some "/guide/") (some true) [],
     SidebarEntry.node "Validation" (some "/guide/validation/") (some true) [],
     SidebarEntry.node "Plugins" (some "/guide/plugins/") (some true) [],
     SidebarEntry.node "Theming" (some "/guide/theming/") (some true) [],
     SidebarEntry.node "Internationalization" (some "/guide/internationalization/") (some true) [],
     SidebarEntry.node "Contributing" (some "/guide/contributing/") (some true) []],
   SidebarEntry.node "Inputs" (some "/guide/inputs") (some false)
    [SidebarEntry.node "Configuration" (some "/guide/inputs/") (some true) [],
     SidebarEntry.node "Custom input types" (some "/guide/inputs/custom-inputs/") (some true) [],
     SidebarEntry.node "Slots" (some "/guide/inputs/slots/") (some true) [],
     SidebarEntry.node "Types" none (some false)
      [SidebarEntry.pathStr "/guide/inputs/types/button/",
       SidebarEntry.pathStr "/guide/inputs/types/box/",
       SidebarEntry.pathStr "/guide/inputs/types/file/",
       SidebarEntry.pathStr "/guide/inputs/types/group/",
       SidebarEntry.pathStr "/guide/inputs/types/select/",
       SidebarEntry.pathStr "/guide/inputs/types/sliders/",
       SidebarEntry.pathStr "/guide/inputs/types/text/",
       SidebarEntry.pathStr "/guide/inputs/types/textarea/"]],
   SidebarEntry.node "Forms" (some "/guide/forms") (some false)
    [SidebarEntry.node "Using forms" (some "/guide/forms/") (some true) [],
     SidebarEntry.node "Error handling" (some "/guide/forms/error-handling/") (some true) []]]

/-- One `themeConfig.nav` link, lines 114-118 of `config.js`. -/
structure NavLink where
  text : String
  link : String
deriving Repr, DecidableEq

/-- Options object of the `seo` plugin, lines 140-152 of `config.js`: each
field is one of the metadata callbacks, transcribed in declaration order.
The `url` callback models `($site.themeConfig.domain || '') + path`. -/
structure SeoOptions where
  title : Page → String
  image : Page → String
  siteTitle : Page → Site → String
  description : Page → String
  author : Page → Site → Option String
  tags : Page → Option (List String)
  twitterCard : Page → String
  type : Page → String
  url : Page → Site → String → String
  publishedAt : Page → DateField
  modifiedAt : Page → DateField

/-- One entry of the `plugins` array, lines 132-153 of `config.js`: the
plugin name together with the options it is declared with. -/
inductive Plugin where
  | live
  | googleAnalytics (ga : String)
  | seo (opts : SeoOptions)

/-- Name string of a plugin entry, as written in the source array. -/
def Plugin.name : Plugin → String
  | Plugin.live => "live"
  | Plugin.googleAnalytics _ => "@vuepress/google-analytics"
  | Plugin.seo _ => "seo"

/-- The `seo` plugin options literal of `config.js`, field by field. -/
def seoOptions : SeoOptions where
  title := seoTitle
  image := seoImage
  siteTitle := fun _ site => site.title
  description := resolveDescription
  author := fun _ site => site.themeConfigAuthor
  tags := fun page => page.frontmatterTags
  twitterCard := fun _ => "summary_large_image"
  type := fun _ => "article"
  url := fun _ site path => site.themeConfigDomain.getD "" ++ path
  publishedAt := publishedAt
  modifiedAt := modifiedAt

/-- The `themeConfig` object, lines 12-131 of `config.js`; the sidebar
object has the single key `'/guide'`, held in `sidebarGuide`. -/
structure ThemeConfig where
  sidebarGuide : List SidebarEntry
  nav : List NavLink
  searchPlaceholder : String
  smoothScroll : Bool
  logo : String
  repo : String
  docsRepo : String
  docsDir : String
  editLinks : Bool
  editLinkText : String
  algoliaApiKey : String
  algoliaIndexName : String

/-- The configuration object returned by the exported arrow function: the
fields of the object literal on lines 4-155 of `config.js`. Each `head`
entry is a tag name with its attribute list. -/
structure SiteConfig where
  title : String
  description : String
  head : List (String × List (String × String))
  port : Nat
  themeConfig : ThemeConfig
  plugins : List Plugin
  dest : String

/-- The exported configuration-assembly function `module.exports = ctx => ({...})`
of `config.js`. The `ctx` parameter is never read in the body, so the
embedding is parametric in its type and ignores it, exactly as the source does. -/
def mkConfig {Ctx : Type} (_ctx : Ctx) : SiteConfig where
  title := siteTitle
  description := siteDescription
  head :=
    [("link", [("rel", "apple-touch-icon"), ("sizes", "180x180"),
       ("href", "https://vueformulate.com/assets/favicon/apple-touch-icon.png")]),
     ("script", [("src", "https://polyfill.io/v3/polyfill.min.js?features=es2015%2CFunction.name")])]
  port := 8123
  themeConfig :=
    { sidebarGuide := guideSidebar
      nav := [⟨"Home", "/"⟩, ⟨"Guide", "/guide/"⟩, ⟨"Changelog", "/changelog/"⟩]
      searchPlaceholder := "Search..."
      smoothScroll := true
      logo := "/assets/img/logo.png"
      repo := "wearebraid/vue-formulate"
      docsRepo := "wearebraid/vueformulate.com"
      docsDir := "docs"
      editLinks := true
      editLinkText := "Help improve this page!"
      algoliaApiKey := "efde7b14d4e236e6a1ea491545e42ea0"
      algoliaIndexName := "vueformulate" }
  plugins :=
    [Plugin.live,
     Plugin.googleAnalytics "UA-107296601-3",
     Plugin.seo seoOptions]
  dest := "public"

/-- Evaluation of the exported arrow function threaded through an arbitrary
ambient state `σ`. The body of `module.exports` is a single object literal:
it performs no assignment and reads no mutable binding (`description` and
`title` are `const`), so an evaluation leaves any ambient state untouched
and returns the pure value of `mkConfig`. -/
def runConfig {Ctx σ : Type} (ctx : Ctx) (w : σ) : SiteConfig × σ :=
  (mkConfig ctx, w)

/-- One option of the example autocomplete component: the guide page passes
objects with a numeric `value` and a string `label`. -/
structure AutoOption where
  value : Int
  label : String
deriving Repr, DecidableEq

/-- Substring containment on character lists, the model of JS
`String.prototype.includes`: `containsSub needle hay` is true iff `needle`
occurs contiguously inside `hay` (the empty needle occurs everywhere). -/
def containsSub (needle : List Char) : List Char → Bool
  | [] => needle.isEmpty
  | c :: rest => needle.isPrefixOf (c :: rest) || containsSub needle rest

/-- The filter predicate of `filteredOptions`:
`option.label.toLowerCase().includes(model.toLowerCase())`. -/
def labelContainsModel (model : String) (o : AutoOption) : Bool :=
  containsSub model.toLower.toList o.label.toLower.toList

/-- The `filteredOptions` computed property of the example autocomplete
component (guide page, lines 144-153). `context.options` is `some` list when
`Array.isArray` holds and `none` otherwise; `context.model` is a string,
truthy iff non-empty; `isAlreadySelected` is `options.find(o => o.label === model)`. -/
def filteredOptions (options : Option (List AutoOption)) (model : String) :
    List AutoOption :=
  match options with
  | none => []
  | some opts =>
    if model = "" then []
    else
      match opts.find? (fun o => o.label == model) with
      | some _ => []
      | none => opts.filter (labelContainsModel model)

/-- The `increment` method of the example autocomplete component: move the
selection down, wrapping past the end to index `0`. Indices are `Int`, as JS
numbers holding integral values. -/
def increment (filteredLen selectedIndex : Int) : Int :=
  if selectedIndex + 1 < filteredLen then selectedIndex + 1 else 0

/-- The `decrement` method of the example autocomplete component: move the
selection up, wrapping past the start to the last index. -/
def decrement (filteredLen selectedIndex : Int) : Int :=
  if selectedIndex - 1 ≥ 0 then selectedIndex - 1 else filteredLen - 1

/-- Title of a sidebar entry: `some` for object entries, `none` for bare
path-string shorthands. -/
def entryTitle : SidebarEntry → Option String
  | SidebarEntry.node t _ _ _ => some t
  | SidebarEntry.pathStr _ => none

mutual

/-- Deep check over one sidebar entry that every node with a non-empty
children list carries an explicit `collapsable` flag. -/
def collapsableSetDeep : SidebarEntry → Bool
  | SidebarEntry.node _ _ c ch => (ch.isEmpty || c.isSome) && collapsableSetDeepList ch
  | SidebarEntry.pathStr _ => true

/-- Deep check of `collapsableSetDeep` over a list of sidebar entries. -/
def collapsableSetDeepList : List SidebarEntry → Bool
  | [] => true
  | e :: es => collapsableSetDeep e && collapsableSetDeepList es

end

/-- C1 counterexample: a page whose frontmatter supplies the empty string as
its description does not get it back verbatim — the JS `||` treats `""` as
falsy and the resolver returns the site default instead. -/
theorem c1_description_counterexample :
    resolveDescription ⟨"Docs", some "", none, none, none⟩ = siteDescription ∧
    resolveDescription ⟨"Docs", some "", none, none, none⟩ ≠ "" := by
  refine ⟨rfl, ?_⟩
  decide

/-- C1 (amended): the description resolver returns a page-supplied
description verbatim whenever that description is non-empty, and returns the
fixed site-wide default when the page supplies none or supplies the empty
string. -/
theorem c1_description_resolution :
    (∀ page : Page, ∀ s : String, page.frontmatterDescription = some s → s ≠ "" →
      resolveDescription page = s) ∧
    (∀ page : Page,
      page.frontmatterDescription = none ∨ page.frontmatterDescription = some "" →
      resolveDescription page = siteDescription) := by
  constructor
  · intro page s hs hne
    simp [resolveDescription, hs, hne]
  · intro page h
    rcases h with h | h <;> simp [resolveDescription, h]

/-- C1 witness: instantiation of the amended theorem at a page with a
non-empty description and at a page with no description. -/
theorem c1_description_resolution_witness :
    resolveDescription ⟨"Docs", some "Hello", none, none, none⟩ = "Hello" ∧
    resolveDescription ⟨"Docs", none, none, none, none⟩ = siteDescription :=
  ⟨c1_description_resolution.1 ⟨"Docs", some "Hello", none, none, none⟩ "Hello" rfl
     (by decide),
   c1_description_resolution.2 ⟨"Docs", none, none, none, none⟩ (Or.inl rfl)⟩

/-- C2: `publishedAt` and `modifiedAt` produce a date value only when the
corresponding frontmatter date / last-updated metadata exists on the page,
and when that metadata is absent the callback yields `undef` (the field is
omitted), never a zero or epoch date. -/
theorem c2_date_fields :
    (∀ page : Page, page.frontmatterDate = none → publishedAt page = DateField.undef) ∧
    (∀ page : Page, ∀ s : String, publishedAt page = DateField.date s →
      page.frontmatterDate = some s) ∧
    (∀ page : Page, page.lastUpdated = none → modifiedAt page = DateField.undef) ∧
    (∀ page : Page, ∀ s : String, modifiedAt page = DateField.date s →
      page.lastUpdated = some s) := by
  refine ⟨fun page h => by simp [publishedAt, h], fun page s h => ?_,
          fun page h => by simp [modifiedAt, h], fun page s h => ?_⟩
  · rcases hd : page.frontmatterDate with _ | t
    · simp [publishedAt, hd] at h
    · simp only [publishedAt, hd] at h
      by_cases ht : t = ""
      · simp [ht] at h
      · simp only [if_neg ht, DateField.date.injEq] at h
        rw [h]
  · rcases hd : page.lastUpdated with _ | t
    · simp [modifiedAt, hd] at h
    · simp only [modifiedAt, hd] at h
      by_cases ht : t = ""
      · simp [ht] at h
      · simp only [if_neg ht, DateField.date.injEq] at h
        rw [h]

/-- C2 witness: instantiation at pages without date metadata, and at pages
whose callbacks yield concrete date values. -/
theorem c2_date_fields_witness :
    publishedAt ⟨"Docs", none, none, none, none⟩ = DateField.undef ∧
    (⟨"Docs", none, some "2020-01-01", none, none⟩ : Page).frontmatterDate =
      some "2020-01-01" ∧
    modifiedAt ⟨"Docs", none, none, none, none⟩ = DateField.undef ∧
    (⟨"Docs", none, none, none, some "May 5, 2020"⟩ : Page).lastUpdated =
      some "May 5, 2020" :=
  ⟨c2_date_fields.1 ⟨"Docs", none, none, none, none⟩ rfl,
   c2_date_fields.2.1 ⟨"Docs", none, some "2020-01-01", none, none⟩ "2020-01-01" rfl,
   c2_date_fields.2.2.1 ⟨"Docs", none, none, none, none⟩ rfl,
   c2_date_fields.2.2.2 ⟨"Docs", none, none, none, some "May 5, 2020"⟩ "May 5, 2020" rfl⟩

/-- C3: for every context the assembled configuration's plugin sequence is
exactly the ordered list live, google-analytics, seo, in declaration order. -/
theorem c3_plugin_order :
    ∀ {Ctx : Type} (ctx : Ctx),
      ((mkConfig ctx).plugins).map Plugin.name =
        ["live", "@vuepress/google-analytics", "seo"] := by
  intro Ctx ctx
  rfl

/-- C4: the top-level sections of the assembled sidebar tree appear in
exactly the order Guide, Inputs, Forms. -/
theorem c4_top_level_order :
    ∀ {Ctx : Type} (ctx : Ctx),
      ((mkConfig ctx).themeConfig.sidebarGuide).filterMap entryTitle =
        ["Guide", "Inputs", "Forms"] := by
  intro Ctx ctx
  rfl

/-- C5: for every page the resolved SEO title is the page's title suffixed
with the site name, separated by an em dash. -/
theorem c5_seo_title :
    ∀ page : Page, seoTitle page = page.title ++ (" — " ++ siteTitle) := by
  intro page
  have h : (" — " ++ siteTitle : String) = " — Vue Formulate" := by decide
  rw [h]
  rfl

/-- C6: the image resolver returns the same fixed absolute URL on every
page; no per-page input changes its result. -/
theorem c6_image_constant :
    ∀ p q : Page,
      seoImage p = "https://vueformulate.com/assets/img/og.jpg" ∧
      seoImage p = seoImage q := by
  intro p q
  exact ⟨rfl, rfl⟩

/-- C7: every node of the assembled sidebar tree with a non-empty children
sequence has its `collapsable` field explicitly set (to `true` or `false`),
never left unset. -/
theorem c7_collapsable_always_set :
    ∀ {Ctx : Type} (ctx : Ctx),
      collapsableSetDeepList (mkConfig ctx).themeConfig.sidebarGuide = true := by
  intro Ctx ctx
  rfl

/-- C8: evaluating the configuration-assembly function twice with identical
inputs yields structurally identical configuration objects, and the ambient
state is passed through untouched — there is no hidden mutable or
incrementing state. -/
theorem c8_pure_reevaluation :
    ∀ {Ctx σ : Type} (ctx : Ctx) (w : σ),
      (runConfig ctx (runConfig ctx w).2).1 = (runConfig ctx w).1 ∧
      (runConfig ctx (runConfig ctx w).2).2 = w := by
  intro Ctx σ ctx w
  exact ⟨rfl, rfl⟩

/-- C9: with a non-empty filtered list and an in-range selection index,
`increment` and `decrement` keep the index within `0` to `length - 1`
inclusive, `increment` at the last index wraps to `0`, and `decrement` at
index `0` wraps to `length - 1`. -/
theorem c9_selection_wraps :
    ∀ len idx : Int, 0 < len → 0 ≤ idx → idx < len →
      0 ≤ increment len idx ∧ increment len idx < len ∧
      0 ≤ decrement len idx ∧ decrement len idx < len ∧
      increment len (len - 1) = 0 ∧ decrement len 0 = len - 1 := by
  intro len idx hlen h0 hlt
  unfold increment decrement
  split_ifs <;> omega

/-- C9 witness: instantiation at a filtered list of length 4 with the
selection on the last index. -/
theorem c9_selection_wraps_witness :
    0 ≤ increment 4 3 ∧ increment 4 3 < 4 ∧
    0 ≤ decrement 4 3 ∧ decrement 4 3 < 4 ∧
    increment 4 (4 - 1) = 0 ∧ decrement 4 0 = 4 - 1 :=
  c9_selection_wraps 4 3 (by decide) (by decide) (by decide)

/-- C10: `filteredOptions` is empty whenever the model is empty, the options
prop is not an array, or some option's label is strictly equal to the model;
otherwise it is exactly the options whose lowercased label contains the
lowercased model. -/
theorem c10_filtered_options :
    (∀ options : Option (List AutoOption), filteredOptions options "" = []) ∧
    (∀ model : String, filteredOptions none model = []) ∧
    (∀ opts : List AutoOption, ∀ model : String,
      (∃ o ∈ opts, o.label = model) → filteredOptions (some opts) model = []) ∧
    (∀ opts : List AutoOption, ∀ model : String, model ≠ "" →
      (∀ o ∈ opts, o.label ≠ model) →
      filteredOptions (some opts) model = opts.filter (labelContainsModel model)) := by
  refine ⟨fun options => ?_, fun model => rfl, fun opts model h => ?_, fun opts model hm hall => ?_⟩
  · cases options <;> simp [filteredOptions]
  · rcases h with ⟨o, ho, hlabel⟩
    by_cases hm : model = ""
    · simp [filteredOptions, hm]
    · have hne : opts.find? (fun o => o.label == model) ≠ none := by
        rw [Ne, List.find?_eq_none]
        push_neg
        exact ⟨o, ho, by simp [hlabel]⟩
      rcases hfind : opts.find? (fun o => o.label == model) with _ | x
      · exact absurd hfind hne
      · simp [filteredOptions, hm, hfind]
  · have hfind : opts.find? (fun o => o.label == model) = none := by
      rw [List.find?_eq_none]
      intro x hx
      simpa using hall x hx
    simp [filteredOptions, hm, hfind]

/-- C10 witness: instantiation at the options of the guide's example
(the empty model, a missing options array, an already-selected model, and a
partial model matching some labels case-insensitively). -/
theorem c10_filtered_options_witness :
    filteredOptions (some [⟨1, "Jon Doe"⟩, ⟨2, "Jane Roe"⟩]) "" = [] ∧
    filteredOptions none "oe" = [] ∧
    filteredOptions (some [⟨1, "Jon Doe"⟩, ⟨2, "Jane Roe"⟩]) "Jon Doe" = [] ∧
    filteredOptions (some [⟨1, "Jon Doe"⟩, ⟨2, "Jane Roe"⟩, ⟨4, "Ben Cho"⟩]) "oe" =
      List.filter (labelContainsModel "oe") [⟨1, "Jon Doe"⟩, ⟨2, "Jane Roe"⟩, ⟨4, "Ben Cho"⟩] :=
  ⟨c10_filtered_options.1 (some [⟨1, "Jon Doe"⟩, ⟨2, "Jane Roe"⟩]),
   c10_filtered_options.2.1 "oe",
   c10_filtered_options.2.2.1 [⟨1, "Jon Doe"⟩, ⟨2, "Jane Roe"⟩] "Jon Doe"
     ⟨⟨1, "Jon Doe"⟩, by decide, rfl⟩,
   c10_filtered_options.2.2.2 [⟨1, "Jon Doe"⟩, ⟨2, "Jane Roe"⟩, ⟨4, "Ben Cho"⟩] "oe"
     (by decide) (by decide)⟩

end VueformulateDocs
